import Mathlib

/-!
Shallow embedding of `src/contrast_verification.py`: WCAG contrast-ratio
verification. The Python floats are modelled by real numbers; Python's
exceptions (the `ValueError` raised by `int(s, 16)`) are modelled by
`Option`, with `none` standing for a raised error.
-/

namespace ContrastVerification

/-- Value of a single hexadecimal digit character, as accepted by Python's
`int(s, 16)`: `'0'`-`'9'` (code points 48-57), `'a'`-`'f'` (97-102),
`'A'`-`'F'` (65-70). Any other character has no value. -/
def hexDigitVal? (c : Char) : Option Nat :=
  let n := c.toNat
  if 48 ≤ n ∧ n ≤ 57 then some (n - 48)
  else if 97 ≤ n ∧ n ≤ 102 then some (n - 87)
  else if 65 ≤ n ∧ n ≤ 70 then some (n - 55)
  else none

/-- Accumulator loop reading a base-16 numeral left to right. -/
def hexNatAux : List Char → Nat → Option Nat
  | [], acc => some acc
  | c :: rest, acc =>
    match hexDigitVal? c with
    | some d => hexNatAux rest (16 * acc + d)
    | none => none

/-- An unsigned base-16 numeral: one or more hex digits. The empty string is
not a numeral (Python's `int("", 16)` raises `ValueError`). -/
def hexNat? : List Char → Option Nat
  | [] => none
  | l => hexNatAux l 0

/-- Model of Python's `int(s, 16)`: an optional sign followed by one or more
hex digits, `none` when the parse raises `ValueError`. (Python additionally
accepts surrounding whitespace, interior underscores and an `0x` prefix;
those never arise from slices of the color strings this program handles and
are not modelled.) -/
def pyIntHex (l : List Char) : Option Int :=
  match l with
  | [] => none
  | c :: rest =>
    if c = '-' then (hexNat? rest).map (fun n => -(n : Int))
    else if c = '+' then (hexNat? rest).map (fun n => (n : Int))
    else (hexNat? l).map (fun n => (n : Int))

/-- Python slice `l[i:i+2]`: out-of-range indices silently truncate. -/
def pySlice2 (l : List Char) (i : Nat) : List Char := (l.drop i).take 2

/-- `hex_to_rgb` from the source: strip every leading `'#'`
(`hex_color.lstrip('#')`), then parse the slices `[0:2]`, `[2:4]`, `[4:6]`
as base-16 integers. `none` models the `ValueError` raised when a slice is
empty or contains a non-hex character. -/
def hex_to_rgb (hex_color : String) : Option (Int × Int × Int) :=
  let t := hex_color.data.dropWhile (· == '#')
  match pyIntHex (pySlice2 t 0), pyIntHex (pySlice2 t 2), pyIntHex (pySlice2 t 4) with
  | some r, some g, some b => some (r, g, b)
  | _, _, _ => none

/-- A color string that is valid in the spec's sense once `'#'` prefixes are
removed: the stripped string is exactly 6 hex digits. -/
def Valid6Hex (s : String) : Prop :=
  let t := s.data.dropWhile (· == '#')
  t.length = 6 ∧ ∀ c ∈ t, (hexDigitVal? c).isSome = true

instance (s : String) : Decidable (Valid6Hex s) := by
  unfold Valid6Hex
  exact instDecidableAnd

/-- The inner `transform` of `luminance` in the source: normalize the channel
by `255.0` and apply the piecewise sRGB-to-linear transfer function. The
Python floats are modelled by real numbers. -/
noncomputable def transform (c : Int) : ℝ :=
  let x : ℝ := (c : ℝ) / 255.0
  if x ≤ 0.03928 then x / 12.92 else ((x + 0.055) / 1.055) ^ (2.4 : ℝ)

/-- `luminance` from the source: the WCAG weighted sum of the transformed
channels of an `(r, g, b)` tuple. -/
noncomputable def luminance (rgb : Int × Int × Int) : ℝ :=
  0.2126 * transform rgb.1 + 0.7152 * transform rgb.2.1 + 0.0722 * transform rgb.2.2

/-- `contrast_ratio` from the source: parse both colors, take their
luminances, and divide the larger plus 0.05 by the smaller plus 0.05.
`none` models a parse error propagating out. -/
noncomputable def contrast_ratio (color1 color2 : String) : Option ℝ :=
  match hex_to_rgb color1, hex_to_rgb color2 with
  | some rgb1, some rgb2 =>
    let lum1 := luminance rgb1
    let lum2 := luminance rgb2
    some ((max lum1 lum2 + 0.05) / (min lum1 lum2 + 0.05))
  | _, _ => none

/-- `check_compliance` from the source: `compliant = ratio >= min_ratio`
with default `min_ratio = 4.5`. The `print` side effect is peripheral output
and is not part of the returned value; `description` only feeds that print. -/
noncomputable def check_compliance (foreground background : String)
    (min_ratio : ℝ := 4.5) (description : String := "") : Option Bool :=
  match contrast_ratio foreground background with
  | some ratio =>
    let _ := description
    some (if min_ratio ≤ ratio then true else false)
  | none => none

/-- Transcription of the spec's §4.2 transfer function, written from the
spec's words (for the refinement claim C2): `c' <= 0.03928` gives
`c' / 12.92`, otherwise `((c' + 0.055) / 1.055) ^ 2.4`. -/
noncomputable def wcagLinearSpec (x : ℝ) : ℝ :=
  if x ≤ 0.03928 then x / 12.92 else ((x + 0.055) / 1.055) ^ (2.4 : ℝ)

/-- Transcription of the spec's §4.2 luminance formula, written from the
spec's words: normalize each channel by 255.0, linearize, and combine with
weights 0.2126, 0.7152, 0.0722. -/
noncomputable def wcagLuminanceSpec (r g b : Int) : ℝ :=
  0.2126 * wcagLinearSpec ((r : ℝ) / 255.0)
    + 0.7152 * wcagLinearSpec ((g : ℝ) / 255.0)
    + 0.0722 * wcagLinearSpec ((b : ℝ) / 255.0)

/-! ### Range of the transfer function and of luminance -/

lemma transform_nonneg {c : Int} (hc : 0 ≤ c) : 0 ≤ transform c := by
  simp only [transform]
  have hx : (0 : ℝ) ≤ (c : ℝ) / 255.0 := by positivity
  split
  · positivity
  · exact Real.rpow_nonneg (by positivity) _

lemma transform_le_one {c : Int} (hc : 0 ≤ c) (hc' : c ≤ 255) : transform c ≤ 1 := by
  simp only [transform]
  have hx0 : (0 : ℝ) ≤ (c : ℝ) / 255.0 := by positivity
  have hx1 : (c : ℝ) / 255.0 ≤ 1 := by
    rw [div_le_one (by norm_num)]
    have h1 : (c : ℝ) ≤ 255 := by exact_mod_cast hc'
    exact le_trans h1 (by norm_num)
  split
  · rw [div_le_one (by norm_num)]
    nlinarith
  · apply Real.rpow_le_one (by positivity) _ (by norm_num)
    rw [div_le_one (by norm_num)]
    linarith

lemma luminance_nonneg {r g b : Int} (hr : 0 ≤ r) (hg : 0 ≤ g) (hb : 0 ≤ b) :
    0 ≤ luminance (r, g, b) := by
  unfold luminance
  have h1 := transform_nonneg hr
  have h2 := transform_nonneg hg
  have h3 := transform_nonneg hb
  simp only at *
  nlinarith

lemma luminance_le_one {r g b : Int} (hr : 0 ≤ r) (hr' : r ≤ 255)
    (hg : 0 ≤ g) (hg' : g ≤ 255) (hb : 0 ≤ b) (hb' : b ≤ 255) :
    luminance (r, g, b) ≤ 1 := by
  unfold luminance
  have h1 := transform_le_one hr hr'
  have h2 := transform_le_one hg hg'
  have h3 := transform_le_one hb hb'
  simp only at *
  nlinarith

/-! ### Rational bounds for the 2.4 power: `x ^ 2.4 = (x ^ 12) ^ (1/5)` -/

lemma rpow_two_point_four_pow_five {x : ℝ} (hx : 0 ≤ x) :
    (x ^ (2.4 : ℝ)) ^ (5 : ℕ) = x ^ (12 : ℕ) := by
  have h : ((2.4 : ℝ) * ((5 : ℕ) : ℝ)) = ((12 : ℕ) : ℝ) := by norm_num
  rw [← Real.rpow_natCast (x ^ (2.4 : ℝ)) 5, ← Real.rpow_mul hx, h, Real.rpow_natCast]

lemma rpow_le_of_pow_le {x q : ℝ} (hx : 0 ≤ x) (hq : 0 ≤ q)
    (h : x ^ (12 : ℕ) ≤ q ^ (5 : ℕ)) : x ^ (2.4 : ℝ) ≤ q := by
  have h5 : (x ^ (2.4 : ℝ)) ^ (5 : ℕ) ≤ q ^ (5 : ℕ) := by
    rw [rpow_two_point_four_pow_five hx]; exact h
  exact le_of_pow_le_pow_left₀ (by norm_num) hq h5

lemma le_rpow_of_pow_le {x q : ℝ} (hx : 0 ≤ x) (h : q ^ (5 : ℕ) ≤ x ^ (12 : ℕ)) :
    q ≤ x ^ (2.4 : ℝ) := by
  have hx24 : 0 ≤ x ^ (2.4 : ℝ) := Real.rpow_nonneg hx _
  have h5 : q ^ (5 : ℕ) ≤ (x ^ (2.4 : ℝ)) ^ (5 : ℕ) := by
    rw [rpow_two_point_four_pow_five hx]; exact h
  exact le_of_pow_le_pow_left₀ (by norm_num) hx24 h5

lemma transform_eq_rpow {c : Int} (h : ¬((c : ℝ) / 255.0 ≤ 0.03928)) :
    transform c = (((c : ℝ) / 255.0 + 0.055) / 1.055) ^ (2.4 : ℝ) := by
  simp only [transform]
  rw [if_neg h]

lemma transform_eq_linear {c : Int} (h : (c : ℝ) / 255.0 ≤ 0.03928) :
    transform c = (c : ℝ) / 255.0 / 12.92 := by
  simp only [transform]
  rw [if_pos h]

/-! ### Parsing a valid color always succeeds with channels in [0, 255] -/

lemma hexDigitVal?_le15 {c : Char} {v : Nat} (h : hexDigitVal? c = some v) : v ≤ 15 := by
  simp only [hexDigitVal?] at h
  split_ifs at h <;> simp_all <;> omega

lemma hexDigitVal?_ne_sign {c : Char} (h : (hexDigitVal? c).isSome = true) :
    c ≠ '-' ∧ c ≠ '+' := by
  constructor <;> rintro rfl <;> revert h <;> decide

lemma hexNat?_two {c1 c2 : Char} {v1 v2 : Nat}
    (h1 : hexDigitVal? c1 = some v1) (h2 : hexDigitVal? c2 = some v2) :
    hexNat? [c1, c2] = some (16 * v1 + v2) := by
  simp [hexNat?, hexNatAux, h1, h2]

lemma pyIntHex_two {c1 c2 : Char} {v1 v2 : Nat}
    (h1 : hexDigitVal? c1 = some v1) (h2 : hexDigitVal? c2 = some v2) :
    pyIntHex [c1, c2] = some ((16 * v1 + v2 : Nat) : Int) := by
  have hne := hexDigitVal?_ne_sign (show (hexDigitVal? c1).isSome = true by rw [h1]; rfl)
  simp only [pyIntHex]
  rw [if_neg hne.1, if_neg hne.2, hexNat?_two h1 h2]
  rfl

lemma hex_to_rgb_of_valid {s : String} (h : Valid6Hex s) :
    ∃ r g b : Int, hex_to_rgb s = some (r, g, b) ∧
      0 ≤ r ∧ r ≤ 255 ∧ 0 ≤ g ∧ g ≤ 255 ∧ 0 ≤ b ∧ b ≤ 255 := by
  simp only [Valid6Hex] at h
  obtain ⟨hlen, hdig⟩ := h
  simp only [hex_to_rgb]
  generalize hT : s.data.dropWhile (· == '#') = t at hlen hdig ⊢
  rcases t with _ | ⟨a, t⟩; · simp at hlen
  rcases t with _ | ⟨b, t⟩; · simp at hlen
  rcases t with _ | ⟨c, t⟩; · simp at hlen
  rcases t with _ | ⟨d, t⟩; · simp at hlen
  rcases t with _ | ⟨e, t⟩; · simp at hlen
  rcases t with _ | ⟨f, t⟩; · simp at hlen
  rcases t with _ | ⟨x, t⟩
  swap; · simp at hlen
  obtain ⟨va, hva⟩ := Option.isSome_iff_exists.mp (hdig a (by simp))
  obtain ⟨vb, hvb⟩ := Option.isSome_iff_exists.mp (hdig b (by simp))
  obtain ⟨vc, hvc⟩ := Option.isSome_iff_exists.mp (hdig c (by simp))
  obtain ⟨vd, hvd⟩ := Option.isSome_iff_exists.mp (hdig d (by simp))
  obtain ⟨ve, hve⟩ := Option.isSome_iff_exists.mp (hdig e (by simp))
  obtain ⟨vf, hvf⟩ := Option.isSome_iff_exists.mp (hdig f (by simp))
  have s1 : pySlice2 [a, b, c, d, e, f] 0 = [a, b] := rfl
  have s2 : pySlice2 [a, b, c, d, e, f] 2 = [c, d] := rfl
  have s3 : pySlice2 [a, b, c, d, e, f] 4 = [e, f] := rfl
  rw [s1, s2, s3, pyIntHex_two hva hvb, pyIntHex_two hvc hvd, pyIntHex_two hve hvf]
  refine ⟨_, _, _, rfl, ?_, ?_, ?_, ?_, ?_, ?_⟩
  · exact Int.ofNat_nonneg _
  · have := hexDigitVal?_le15 hva; have := hexDigitVal?_le15 hvb
    exact_mod_cast (by omega : 16 * va + vb ≤ 255)
  · exact Int.ofNat_nonneg _
  · have := hexDigitVal?_le15 hvc; have := hexDigitVal?_le15 hvd
    exact_mod_cast (by omega : 16 * vc + vd ≤ 255)
  · exact Int.ofNat_nonneg _
  · have := hexDigitVal?_le15 hve; have := hexDigitVal?_le15 hvf
    exact_mod_cast (by omega : 16 * ve + vf ≤ 255)

/-! ### Concrete luminance values and bounds -/

lemma transform_255 : transform 255 = 1 := by
  have h : ¬(((255 : Int) : ℝ) / 255.0 ≤ 0.03928) := by push_cast; norm_num
  rw [transform_eq_rpow h]
  have hx : ((((255 : Int) : ℝ) / 255.0 + 0.055) / 1.055) = 1 := by push_cast; norm_num
  rw [hx, Real.one_rpow]

lemma transform_0 : transform 0 = 0 := by
  have h : ((0 : Int) : ℝ) / 255.0 ≤ 0.03928 := by push_cast; norm_num
  rw [transform_eq_linear h]
  push_cast; norm_num

lemma luminance_white : luminance (255, 255, 255) = 1 := by
  unfold luminance
  simp only [transform_255]
  norm_num

lemma luminance_black : luminance (0, 0, 0) = 0 := by
  unfold luminance
  simp only [transform_0]
  norm_num

lemma transform_21_le : transform 21 ≤ 0.008 := by
  have h : ¬(((21 : Int) : ℝ) / 255.0 ≤ 0.03928) := by push_cast; norm_num
  rw [transform_eq_rpow h]
  apply rpow_le_of_pow_le (by positivity) (by norm_num)
  push_cast; norm_num

lemma transform_101_le : transform 101 ≤ 0.133 := by
  have h : ¬(((101 : Int) : ℝ) / 255.0 ≤ 0.03928) := by push_cast; norm_num
  rw [transform_eq_rpow h]
  apply rpow_le_of_pow_le (by positivity) (by norm_num)
  push_cast; norm_num

lemma transform_192_le : transform 192 ≤ 0.528 := by
  have h : ¬(((192 : Int) : ℝ) / 255.0 ≤ 0.03928) := by push_cast; norm_num
  rw [transform_eq_rpow h]
  apply rpow_le_of_pow_le (by positivity) (by norm_num)
  push_cast; norm_num

lemma transform_250_ge : 0.2 ≤ transform 250 := by
  have h : ¬(((250 : Int) : ℝ) / 255.0 ≤ 0.03928) := by push_cast; norm_num
  rw [transform_eq_rpow h]
  apply le_rpow_of_pow_le (by positivity)
  push_cast; norm_num

lemma luminance_1565C0_lt : luminance (21, 101, 192) < 11 / 60 := by
  unfold luminance
  have h1 := transform_21_le
  have h2 := transform_101_le
  have h3 := transform_192_le
  have h4 := transform_nonneg (show (0 : Int) ≤ 21 by decide)
  have h5 := transform_nonneg (show (0 : Int) ≤ 101 by decide)
  have h6 := transform_nonneg (show (0 : Int) ≤ 192 by decide)
  simp only at *
  nlinarith

lemma luminance_FAFAFA_gt : 11 / 60 < luminance (250, 250, 250) := by
  unfold luminance
  have h1 := transform_250_ge
  simp only at *
  nlinarith

/-! ### Contrast ratio helpers -/

lemma contrast_ratio_eq {s1 s2 : String} {rgb1 rgb2 : Int × Int × Int}
    (h1 : hex_to_rgb s1 = some rgb1) (h2 : hex_to_rgb s2 = some rgb2) :
    contrast_ratio s1 s2 =
      some ((max (luminance rgb1) (luminance rgb2) + 0.05) /
        (min (luminance rgb1) (luminance rgb2) + 0.05)) := by
  simp only [contrast_ratio, h1, h2]

lemma check_compliance_eq {s1 s2 : String} {x m : ℝ} {d : String}
    (h : contrast_ratio s1 s2 = some x) :
    check_compliance s1 s2 m d = some (if m ≤ x then true else false) := by
  simp only [check_compliance, h]

lemma luminance_mem_of_valid {s : String} {rgb : Int × Int × Int}
    (hv : Valid6Hex s) (h : hex_to_rgb s = some rgb) :
    0 ≤ luminance rgb ∧ luminance rgb ≤ 1 := by
  obtain ⟨r, g, b, h', hr, hr', hg, hg', hb, hb'⟩ := hex_to_rgb_of_valid hv
  rw [h] at h'
  obtain rfl := Option.some.inj h'
  exact ⟨luminance_nonneg hr hg hb, luminance_le_one hr hr' hg hg' hb hb'⟩

lemma dropWhile_append_of_ne_nil {p : Char → Bool} :
    ∀ l1 l2 : List Char, l1.dropWhile p ≠ [] →
      (l1 ++ l2).dropWhile p = l1.dropWhile p ++ l2 := by
  intro l1 l2 h
  rw [List.dropWhile_append, if_neg]
  simpa [List.isEmpty_iff] using h

/-! ## The claims -/

/-- C1, counterexample: the claim says `hex_to_rgb` fails on `"#12345"`
(5 digits after stripping), but the code parses the final one-character
slice `"5"` as a single hex digit and returns `(0x12, 0x34, 0x5)`. -/
theorem C1_counterexample : hex_to_rgb "#12345" = some (18, 52, 5) := by decide

/-- C1 (amended): `hex_to_rgb` fails (raises `ValueError`, modelled as
`none`) on `"#GGGGGG"` and on `""`, but it does **not** fail on every input
whose stripped form is not exactly 6 hex digits: `"#12345"` succeeds,
returning `(18, 52, 5)`. Failure happens exactly when one of the slices
`[0:2]`, `[2:4]`, `[4:6]` of the stripped string is not a base-16 numeral. -/
theorem C1_error_cases :
    hex_to_rgb "#GGGGGG" = none ∧ hex_to_rgb "" = none ∧
      hex_to_rgb "#12345" = some (18, 52, 5) ∧
      (∀ s : String,
        hex_to_rgb s = none ↔
          (pyIntHex (pySlice2 (s.data.dropWhile (· == '#')) 0) = none ∨
            pyIntHex (pySlice2 (s.data.dropWhile (· == '#')) 2) = none ∨
            pyIntHex (pySlice2 (s.data.dropWhile (· == '#')) 4) = none)) := by
  refine ⟨by decide, by decide, by decide, ?_⟩
  intro s
  simp only [hex_to_rgb]
  rcases h0 : pyIntHex (pySlice2 (s.data.dropWhile (· == '#')) 0) with _ | v0 <;>
    rcases h2 : pyIntHex (pySlice2 (s.data.dropWhile (· == '#')) 2) with _ | v2 <;>
      rcases h4 : pyIntHex (pySlice2 (s.data.dropWhile (· == '#')) 4) with _ | v4 <;>
        simp

/-- C2: for every integer triple with channels in `[0, 255]`, `luminance`
equals the WCAG formula transcribed from the spec, and lies in `[0, 1]`. -/
theorem C2_luminance_matches_wcag (r g b : Int)
    (hr : 0 ≤ r) (hr' : r ≤ 255) (hg : 0 ≤ g) (hg' : g ≤ 255)
    (hb : 0 ≤ b) (hb' : b ≤ 255) :
    luminance (r, g, b) = wcagLuminanceSpec r g b ∧
      0 ≤ luminance (r, g, b) ∧ luminance (r, g, b) ≤ 1 :=
  ⟨rfl, luminance_nonneg hr hg hb, luminance_le_one hr hr' hg hg' hb hb'⟩

/-- Witness for C2 at the concrete triple `(21, 101, 192)`. -/
theorem C2_luminance_matches_wcag_witness :
    ((0 : Int) ≤ 21 ∧ (21 : Int) ≤ 255 ∧ (0 : Int) ≤ 101 ∧ (101 : Int) ≤ 255 ∧
        (0 : Int) ≤ 192 ∧ (192 : Int) ≤ 255) ∧
      (luminance (21, 101, 192) = wcagLuminanceSpec 21 101 192 ∧
        0 ≤ luminance (21, 101, 192) ∧ luminance (21, 101, 192) ≤ 1) :=
  ⟨⟨by decide, by decide, by decide, by decide, by decide, by decide⟩,
    C2_luminance_matches_wcag 21 101 192 (by decide) (by decide) (by decide)
      (by decide) (by decide) (by decide)⟩

/-- C3: the contrast ratio is symmetric in its two color arguments — here
proved for **all** strings, valid or not (both orders fail together). -/
theorem C3_contrast_ratio_symm (a b : String) :
    contrast_ratio a b = contrast_ratio b a := by
  rcases h1 : hex_to_rgb a with _ | rgb1 <;> rcases h2 : hex_to_rgb b with _ | rgb2 <;>
    simp only [contrast_ratio, h1, h2]
  rw [max_comm, min_comm]

/-- C4: for valid 6-hex-digit colors the contrast ratio is defined and lies
in `[1, 21]`. -/
theorem C4_contrast_ratio_range (a b : String) (ha : Valid6Hex a) (hb : Valid6Hex b) :
    ∃ x, contrast_ratio a b = some x ∧ 1 ≤ x ∧ x ≤ 21 := by
  obtain ⟨r1, g1, b1, h1, hr1, hr1', hg1, hg1', hb1, hb1'⟩ := hex_to_rgb_of_valid ha
  obtain ⟨r2, g2, b2, h2, hr2, hr2', hg2, hg2', hb2, hb2'⟩ := hex_to_rgb_of_valid hb
  have l10 := luminance_nonneg hr1 hg1 hb1
  have l11 := luminance_le_one hr1 hr1' hg1 hg1' hb1 hb1'
  have l20 := luminance_nonneg hr2 hg2 hb2
  have l21 := luminance_le_one hr2 hr2' hg2 hg2' hb2 hb2'
  refine ⟨_, contrast_ratio_eq h1 h2, ?_, ?_⟩
  · have hmin : (0 : ℝ) < min (luminance (r1, g1, b1)) (luminance (r2, g2, b2)) + 0.05 := by
      have h0 : (0 : ℝ) ≤ min (luminance (r1, g1, b1)) (luminance (r2, g2, b2)) :=
        le_min l10 l20
      linarith
    rw [le_div_iff₀ hmin, one_mul]
    have := min_le_max (a := luminance (r1, g1, b1)) (b := luminance (r2, g2, b2))
    linarith
  · have hmin : (0 : ℝ) < min (luminance (r1, g1, b1)) (luminance (r2, g2, b2)) + 0.05 := by
      have h0 : (0 : ℝ) ≤ min (luminance (r1, g1, b1)) (luminance (r2, g2, b2)) :=
        le_min l10 l20
      linarith
    rw [div_le_iff₀ hmin]
    have hmax : max (luminance (r1, g1, b1)) (luminance (r2, g2, b2)) ≤ 1 :=
      max_le l11 l21
    have h0 : (0 : ℝ) ≤ min (luminance (r1, g1, b1)) (luminance (r2, g2, b2)) :=
      le_min l10 l20
    nlinarith

/-- Witness for C4 at black versus white. -/
theorem C4_contrast_ratio_range_witness :
    Valid6Hex "#000000" ∧ Valid6Hex "#FFFFFF" ∧
      ∃ x, contrast_ratio "#000000" "#FFFFFF" = some x ∧ 1 ≤ x ∧ x ≤ 21 :=
  ⟨by decide, by decide,
    C4_contrast_ratio_range "#000000" "#FFFFFF" (by decide) (by decide)⟩

/-- C5: `check_compliance` answers `true` exactly when the contrast ratio is
`>=` the threshold (default 4.5); `"#1565C0"` on white is compliant with a
ratio strictly above 4.5, and white on `"#FAFAFA"` is not. -/
theorem C5_check_compliance :
    (∀ fg bg : String, ∀ m : ℝ, ∀ d : String,
        check_compliance fg bg m d = some true ↔
          ∃ x, contrast_ratio fg bg = some x ∧ m ≤ x) ∧
      (∀ fg bg : String, check_compliance fg bg = check_compliance fg bg 4.5 "") ∧
      (∃ x, contrast_ratio "#1565C0" "#FFFFFF" = some x ∧ 4.5 < x) ∧
      check_compliance "#1565C0" "#FFFFFF" 4.5 "Primary on Background" = some true ∧
      check_compliance "#FFFFFF" "#FAFAFA" 4.5 "white on near-white" = some false := by
  have hp : hex_to_rgb "#1565C0" = some (21, 101, 192) := by decide
  have hw : hex_to_rgb "#FFFFFF" = some (255, 255, 255) := by decide
  have hf : hex_to_rgb "#FAFAFA" = some (250, 250, 250) := by decide
  have hL1 := luminance_1565C0_lt
  have hL1n := luminance_nonneg (r := 21) (g := 101) (b := 192)
    (by decide) (by decide) (by decide)
  have hL2 := luminance_FAFAFA_gt
  have hL2le := luminance_le_one (r := 250) (g := 250) (b := 250)
    (by decide) (by decide) (by decide) (by decide) (by decide) (by decide)
  have hcr1 : contrast_ratio "#1565C0" "#FFFFFF" =
      some ((1 + 0.05) / (luminance (21, 101, 192) + 0.05)) := by
    rw [contrast_ratio_eq hp hw, luminance_white,
      max_eq_right (by linarith : luminance (21, 101, 192) ≤ 1),
      min_eq_left (by linarith : luminance (21, 101, 192) ≤ 1)]
  have hgt : (4.5 : ℝ) < (1 + 0.05) / (luminance (21, 101, 192) + 0.05) := by
    rw [lt_div_iff₀ (by linarith)]
    linarith
  have hcr2 : contrast_ratio "#FFFFFF" "#FAFAFA" =
      some ((1 + 0.05) / (luminance (250, 250, 250) + 0.05)) := by
    rw [contrast_ratio_eq hw hf, luminance_white,
      max_eq_left hL2le, min_eq_right hL2le]
  have hlt : (1 + 0.05) / (luminance (250, 250, 250) + 0.05) < 4.5 := by
    rw [div_lt_iff₀ (by linarith)]
    linarith
  refine ⟨?_, fun fg bg => rfl, ⟨_, hcr1, hgt⟩, ?_, ?_⟩
  · intro fg bg m d
    rcases h : contrast_ratio fg bg with _ | x
    · simp [check_compliance, h]
    · simp only [check_compliance, h, Option.some.injEq]
      by_cases hm : m ≤ x <;> simp [hm]
  · rw [check_compliance_eq hcr1, if_pos (le_of_lt hgt)]
  · rw [check_compliance_eq hcr2, if_neg (not_le.mpr hlt)]

/-- C6: white has luminance exactly 1, black exactly 0, and the black/white
contrast ratio is exactly 21 (hence within the claimed 1e-6 tolerance). -/
theorem C6_extreme_values :
    luminance (255, 255, 255) = 1 ∧ luminance (0, 0, 0) = 0 ∧
      contrast_ratio "#000000" "#FFFFFF" = some 21 := by
  refine ⟨luminance_white, luminance_black, ?_⟩
  have h0 : hex_to_rgb "#000000" = some (0, 0, 0) := by decide
  have h1 : hex_to_rgb "#FFFFFF" = some (255, 255, 255) := by decide
  rw [contrast_ratio_eq h0 h1, luminance_black, luminance_white,
    max_eq_right (by norm_num : (0 : ℝ) ≤ 1), min_eq_left (by norm_num : (0 : ℝ) ≤ 1)]
  norm_num

/-- C7: a valid color against itself has contrast ratio exactly 1, and is
judged non-compliant against any threshold strictly greater than 1. -/
theorem C7_identity_ratio (a : String) (t : ℝ) (d : String)
    (ha : Valid6Hex a) (ht : 1 < t) :
    contrast_ratio a a = some 1 ∧ check_compliance a a t d = some false := by
  obtain ⟨r, g, b, h, hr, hr', hg, hg', hb, hb'⟩ := hex_to_rgb_of_valid ha
  have l0 := luminance_nonneg hr hg hb
  have hcr : contrast_ratio a a = some 1 := by
    rw [contrast_ratio_eq h h, max_self, min_self,
      div_self (ne_of_gt (by linarith : (0 : ℝ) < luminance (r, g, b) + 0.05))]
  exact ⟨hcr, by rw [check_compliance_eq hcr, if_neg (not_le.mpr ht)]⟩

/-- Witness for C7 at `"#1565C0"` against threshold 4.5. -/
theorem C7_identity_ratio_witness :
    Valid6Hex "#1565C0" ∧ (1 : ℝ) < 4.5 ∧
      (contrast_ratio "#1565C0" "#1565C0" = some 1 ∧
        check_compliance "#1565C0" "#1565C0" 4.5 "x" = some false) :=
  ⟨by decide, by norm_num,
    C7_identity_ratio "#1565C0" 4.5 "x" (by decide) (by norm_num)⟩

/-- C8: `hex_to_rgb "#1565C0"` splits into `15`, `65`, `C0` and parses each
slice in base 16, giving `(21, 101, 192)`. -/
theorem C8_parse_1565C0 : hex_to_rgb "#1565C0" = some (21, 101, 192) := by decide

/-- C9: with the background fixed at white, the contrast ratio strictly
decreases as the foreground's luminance increases. -/
theorem C9_monotone_on_white (f1 f2 : String) (rgb1 rgb2 : Int × Int × Int)
    (h1 : Valid6Hex f1) (h2 : Valid6Hex f2)
    (hp1 : hex_to_rgb f1 = some rgb1) (hp2 : hex_to_rgb f2 = some rgb2)
    (hlum : luminance rgb1 < luminance rgb2) :
    ∃ x y, contrast_ratio f2 "#FFFFFF" = some x ∧
      contrast_ratio f1 "#FFFFFF" = some y ∧ x < y := by
  obtain ⟨hl10, hl11⟩ := luminance_mem_of_valid h1 hp1
  obtain ⟨hl20, hl21⟩ := luminance_mem_of_valid h2 hp2
  have hw : hex_to_rgb "#FFFFFF" = some (255, 255, 255) := by decide
  refine ⟨_, _, contrast_ratio_eq hp2 hw, contrast_ratio_eq hp1 hw, ?_⟩
  rw [luminance_white, max_eq_right hl21, min_eq_left hl21,
    max_eq_right hl11, min_eq_left hl11]
  rw [div_lt_div_iff₀ (by linarith) (by linarith)]
  linarith

/-- Witness for C9 with foregrounds black (luminance 0) and white
(luminance 1). -/
theorem C9_monotone_on_white_witness :
    Valid6Hex "#000000" ∧ Valid6Hex "#FFFFFF" ∧
      hex_to_rgb "#000000" = some (0, 0, 0) ∧
      hex_to_rgb "#FFFFFF" = some (255, 255, 255) ∧
      luminance (0, 0, 0) < luminance (255, 255, 255) ∧
      ∃ x y, contrast_ratio "#FFFFFF" "#FFFFFF" = some x ∧
        contrast_ratio "#000000" "#FFFFFF" = some y ∧ x < y :=
  ⟨by decide, by decide, by decide, by decide,
    by rw [luminance_black, luminance_white]; norm_num,
    C9_monotone_on_white "#000000" "#FFFFFF" (0, 0, 0) (255, 255, 255)
      (by decide) (by decide) (by decide) (by decide)
      (by rw [luminance_black, luminance_white]; norm_num)⟩

/-- C10: `hex_to_rgb` is more lenient than the spec's 6-hex-digit format:
it strips every leading `'#'` (not just one), ignores everything after the
first six characters of the stripped string, and accepts the 5-digit string
`"12345"`, parsing the final one-character slice as a single hex digit. -/
theorem C10_lenient_parsing :
    (∀ s : String, hex_to_rgb ("#" ++ s) = hex_to_rgb s) ∧
      (∀ s u : String, 6 ≤ (s.data.dropWhile (· == '#')).length →
        hex_to_rgb (s ++ u) = hex_to_rgb s) ∧
      hex_to_rgb "12345" = some (18, 52, 5) := by
  refine ⟨fun s => rfl, ?_, by decide⟩
  intro s u hlen
  simp only [hex_to_rgb, String.data_append]
  have hne : s.data.dropWhile (· == '#') ≠ [] := by
    intro h
    rw [h] at hlen
    simp at hlen
  rw [dropWhile_append_of_ne_nil s.data u.data hne]
  have hs : ∀ i : Nat, i + 2 ≤ (s.data.dropWhile (· == '#')).length →
      pySlice2 (s.data.dropWhile (· == '#') ++ u.data) i =
        pySlice2 (s.data.dropWhile (· == '#')) i := by
    intro i hi
    unfold pySlice2
    rw [List.drop_append_of_le_length (by omega),
      List.take_append_of_le_length (by simp; omega)]
  rw [hs 0 (by omega), hs 2 (by omega), hs 4 (by omega)]

end ContrastVerification
